import Mathlib

/-!
Verification of the astra_migration_tool core against its design notes.

Shallow embedding of the relevant program parts:
* `shorten_filename` from build_migration/src/migration/data_migrator.py,
  modelled at the byte level (filenames as lists of bytes in the
  filesystem encoding).
* `direct_copy_file`, `direct_migrate`, `resume_direct_migration` and the
  per-user checkpoint from src/migration/direct_migration_2.py.
* journal status updates from main.py and src/migration/state_tracker.py.
* `generate_path_variants` / `load_hashes_from_db` from
  src/migration/integrity_checker.py.
* the file-operation traces of migration_supervisor_service/migration_supervisor.py.
-/

namespace AstraMigration

/-! ### Python primitives shared by several embeddings -/

/-- Python dict assignment `m[k] = v`: replace the binding if the key is
present, otherwise append a new binding at the end (insertion order kept). -/
def pyDictInsert {α : Type} : List (String × α) → String → α → List (String × α)
  | [], k, v => [(k, v)]
  | p :: rest, k, v => if p.1 == k then (k, v) :: rest else p :: pyDictInsert rest k v

/-- Python dict lookup `m.get(k)`. -/
def pyDictGet {α : Type} : List (String × α) → String → Option α
  | [], _ => none
  | p :: rest, k => if p.1 == k then some p.2 else pyDictGet rest k

/-- Python byte-slice `b[:n]` where `n` may be negative (counts from the end). -/
def pySliceTo (b : List Nat) (n : Int) : List Nat :=
  if 0 ≤ n then b.take n.toNat else b.take (b.length - n.natAbs)

/-! ### C1 — data_migrator.shorten_filename (byte level)

`sys.getfilesystemencoding()` byte strings are modelled as `List Nat`;
`46` is the dot and `95` the underscore. -/

/-- Index of the last dot (byte 46) in a basename, if any. -/
def lastDotIdx (name : List Nat) : Option Nat :=
  (List.range name.length).foldl
    (fun acc i => if name.getD i 0 = 46 then some i else acc) none

/-- `os.path.splitext` on a basename: split at the last dot unless every
byte before it is a dot. -/
def pySplitext (name : List Nat) : List Nat × List Nat :=
  match lastDotIdx name with
  | none => (name, [])
  | some i =>
    if (name.take i).any (fun b => b ≠ 46) then (name.take i, name.drop i)
    else (name, [])

/-- Decimal digits of `n` as ASCII bytes. -/
def digitsBytes (n : Nat) : List Nat := (toString n).toList.map Char.toNat

/-- The ordinal suffix `_N` as bytes. -/
def ordSuffixBytes (n : Nat) : List Nat := 95 :: digitsBytes n

/-- The `while new_filename in dest_filenames[dest_dir]` loop of
`shorten_filename` (data_migrator.py:78-95): while the current candidate is
reserved, re-derive stem and extension from the fixed `base_filename`,
truncate the stem when the suffixed name would exceed the byte budget, and
try the next ordinal suffix.  The loop is given fuel; the source loop runs
until an unreserved name appears. -/
def shortenLoop (reserved : List (List Nat)) (baseFilename : List Nat)
    (maxLength : Nat) : Nat → Nat → List Nat → Except String (List Nat)
  | 0, _, current =>
    if current ∈ reserved then Except.error "fuel exhausted" else Except.ok current
  | fuel + 1, index, current =>
    if current ∈ reserved then
      let (namePart, extPart) := pySplitext baseFilename
      let suffix := ordSuffixBytes index
      let total := namePart.length + suffix.length + extPart.length
      let namePart' :=
        if total > maxLength then
          pySliceTo namePart ((maxLength : Int) - suffix.length - extPart.length)
        else namePart
      shortenLoop reserved baseFilename maxLength fuel (index + 1)
        (namePart' ++ suffix ++ extPart)
    else Except.ok current

/-- `shorten_filename(filename, dest_dir, max_length)` over the registry of
names already reserved in `dest_dir` (data_migrator.py:37-100).  Returns the
chosen name together with the updated registry, or the uncaught Python
error: when the candidate fits the byte budget but is already reserved, the
source falls through to line 76 where `new_filename` was never assigned. -/
def shorten_filename (filename : List Nat) (reserved : List (List Nat))
    (maxLength : Nat := 255) : Except String (List Nat × List (List Nat)) :=
  if filename.length ≤ maxLength then
    if filename ∉ reserved then Except.ok (filename, filename :: reserved)
    else Except.error "UnboundLocalError: new_filename"
  else
    let (namePart, extPart) := pySplitext filename
    let truncated := pySliceTo namePart ((maxLength : Int) - extPart.length)
    let newFilename := truncated ++ extPart
    match shortenLoop reserved newFilename maxLength (reserved.length + 1) 1 newFilename with
    | Except.ok final => Except.ok (final, final :: reserved)
    | Except.error e => Except.error e

/-! ### C2 / C10 — direct_migration_2.direct_copy_file and direct_migrate

A work item is abstracted by the observable behaviour of the filesystem
operations of direct_copy_file: whether the destination exists, both
mtimes, whether the try-body raised, and whether verification passed. -/

/-- One file of phase A, as seen by `direct_copy_file`. -/
structure FileCtx where
  src : String
  tgt : String
  destExists : Bool
  srcMtime : Nat
  destMtime : Nat
  raised : Bool
  integrityOk : Bool
  size : Nat
deriving DecidableEq

/-- One per-user checkpoint entry (`migration_state[username][source_file]`). -/
structure CheckpointEntry where
  target_file : String
  size : Nat
  verified : Bool
deriving DecidableEq

/-- The copy-needed test of direct_migration_2.py:76:
`not os.path.exists(target) or getmtime(source) > getmtime(target)`. -/
def needsCopy (f : FileCtx) : Bool :=
  !f.destExists || decide (f.destMtime < f.srcMtime)

/-- `direct_copy_file` (direct_migration_2.py:46-173): returns the
`(success, error_message)` pair together with the updated per-user
checkpoint.  An entry is written only on the copied-and-verified path, with
`verified := true`; the skip path and both failure paths leave the
checkpoint unchanged. -/
def direct_copy_file (f : FileCtx) (cp : List (String × CheckpointEntry)) :
    (Bool × Option String) × List (String × CheckpointEntry) :=
  if f.raised then ((false, some "copy-exception"), cp)
  else if needsCopy f then
    if f.integrityOk then
      ((true, none),
        pyDictInsert cp f.src { target_file := f.tgt, size := f.size, verified := true })
    else ((false, some "integrity-mismatch"), cp)
  else ((true, none), cp)

/-- Phase A result aggregation (direct_migration_2.py:540-568):
`copy_success` is the conjunction of all per-file results. -/
def copyPhase (files : List FileCtx) (cp : List (String × CheckpointEntry)) :
    Bool × List (String × CheckpointEntry) :=
  files.foldl
    (fun acc f =>
      let r := direct_copy_file f acc.2
      (acc.1 && r.1.1, r.2))
    (true, cp)

/-- `direct_migrate` outcome (direct_migration_2.py:570-623): phase B runs
only when every copy succeeded; the returned boolean is `rename_success`
then, and `False` whenever any copy failed. -/
def direct_migrate (files : List FileCtx) (renameOk : Bool) : Bool :=
  if (copyPhase files []).1 then renameOk else false

/-- The journal outcome written by the orchestrator for one user
(main.py:279-282): `success` when the engine returned True, otherwise
`completed_with_error`. -/
def userOutcome (migrationSuccess : Bool) : String :=
  if migrationSuccess then "success" else "completed_with_error"

/-- A phase A item whose copy raised an IO error (caught at
direct_migration_2.py:156). -/
def ctxIOError : FileCtx :=
  { src := "/mnt/share/u/doc.txt", tgt := "/home/u/doc.txt", destExists := false,
    srcMtime := 100, destMtime := 0, raised := true, integrityOk := true, size := 4 }

/-- A phase A item that is copied and passes verification. -/
def ctxVerifiedCopy : FileCtx :=
  { src := "/mnt/share/u/a.txt", tgt := "/home/u/a.txt", destExists := false,
    srcMtime := 5, destMtime := 0, raised := false, integrityOk := true, size := 3 }

/-! ### C3 — journal status updates (main.py, state_tracker.py) -/

/-- One status-relevant journal write: `update_global_state` with or without
a `status` kwarg (state_tracker.py:417-446 merges the patch unconditionally),
or a `handle_migration_error` call (state_tracker.py:620-659). -/
inductive JournalUpdate where
  | patch (status : Option String)
  | onError (severityCritical : Bool) (categoryCritical : Bool)
deriving DecidableEq

/-- The status that `handle_migration_error` leaves in the journal
(state_tracker.py:629-654): `failed` for CRITICAL severity, for the
INIT/CONFIG/MOUNT/SOURCE categories, or when the current status is already
`failed`; otherwise the status is untouched. -/
def handle_error_status (cur : String) (severityCritical categoryCritical : Bool) : String :=
  if severityCritical then "failed"
  else if categoryCritical then "failed"
  else if cur = "failed" then "failed"
  else cur

/-- Effect of one journal update on the global status. -/
def applyUpdate (cur : String) : JournalUpdate → String
  | JournalUpdate.patch none => cur
  | JournalUpdate.patch (some s) => s
  | JournalUpdate.onError sc cc => handle_error_status cur sc cc

/-- Effect of a sequence of journal updates. -/
def runUpdates (init : String) (us : List JournalUpdate) : String :=
  us.foldl applyUpdate init

/-- The status updates the orchestrator performs in a run where one user's
migration raised: main.py:329 sets `failed`, the heartbeat thread patches
without a status, main.py:355 sets `success` after the loop. -/
def orchestratorFailThenFinish : List JournalUpdate :=
  [JournalUpdate.patch (some "failed"),
   JournalUpdate.onError false false,
   JournalUpdate.patch none,
   JournalUpdate.patch (some "success")]

/-! ### C4 — orchestrator exit codes (main.py) -/

/-- The inputs that decide main()'s control flow. -/
structure RunInput where
  encryptAll : Bool
  encryptPass : Bool
  mountOk : Bool
  sourceFolderExists : Bool
  runRaised : Bool
  hadErrors : Bool
deriving DecidableEq

/-- How main() leaves the process. -/
inductive MainExit where
  | sysExit (code : Nat)
  | normalReturn
deriving DecidableEq

/-- Control flow of main() (main.py:40-396): the encrypt modes call
`sys.exit(0)`; the mount-failure path (line 111) and the missing-source
path (line 127) `return`; every remaining path — including runs whose user
loop raised (caught at lines 327/358/384) and runs that completed with
errors — falls through and returns `None`. -/
def mainControl (r : RunInput) : MainExit :=
  if r.encryptAll then MainExit.sysExit 0
  else if r.encryptPass then MainExit.sysExit 0
  else if !r.mountOk then MainExit.normalReturn
  else if !r.sourceFolderExists then MainExit.normalReturn
  else MainExit.normalReturn

/-- The process exit code produced by a non-crashing run: `sys.exit(c)`
exits with `c`, a normal return from main() exits with 0. -/
def processExitCode : MainExit → Nat
  | MainExit.sysExit c => c
  | MainExit.normalReturn => 0

/-- A run whose mount failed (fatal initialization error). -/
def runMountFailure : RunInput :=
  { encryptAll := false, encryptPass := false, mountOk := false,
    sourceFolderExists := true, runRaised := false, hadErrors := false }

/-- A run that completed with errors. -/
def runCompletedWithErrors : RunInput :=
  { encryptAll := false, encryptPass := false, mountOk := true,
    sourceFolderExists := true, runRaised := false, hadErrors := true }

/-! ### C6 — state_tracker.save_to_local and save_state_dual -/

/-- `save_to_local` (state_tracker.py:304-332) given the four local write
results: success when at least one of the four files was written. -/
def save_to_local (w1 w2 w3 w4 : Bool) : Bool :=
  let successCount :=
    (if w1 then 1 else 0) + (if w2 then 1 else 0) +
    (if w3 then 1 else 0) + (if w4 then 1 else 0)
  decide (0 < successCount)

/-- `save_state_dual` (state_tracker.py:396-415): the local write always
runs first, the network write always runs second, and the reported result
is the disjunction. -/
def save_state_dual (w1 w2 w3 w4 wNetwork : Bool) : Bool :=
  let localSuccess := save_to_local w1 w2 w3 w4
  let networkSuccess := wNetwork
  localSuccess || networkSuccess

/-! ### C7 — direct_migration_2.resume_direct_migration -/

/-- The fields of a loaded checkpoint entry that `resume_direct_migration`
reads. -/
structure CpInfo where
  verified : Bool
  size : Nat
deriving DecidableEq

/-- What the resume entry point decides to do. -/
inductive ResumeAction where
  | fullMigration
  | alreadyComplete
  | phaseBOnly
deriving DecidableEq

/-- `resume_direct_migration` (direct_migration_2.py:688-793) abstracted
over the loaded checkpoint, the set of directories existing under the
target home (`fs`), the phase-B result and the full-migration result.
The phase-B-evidence test at lines 757-760 checks exactly
`<target>/Desktops/Desktop1` and `<target>/Документы`. -/
def resume_direct_migration (target_dir : String) (user_state : List (String × CpInfo))
    (fs : List String) (renameOk : Bool) (fullMigrateResult : Bool) :
    ResumeAction × Bool :=
  if user_state.isEmpty then (ResumeAction.fullMigration, fullMigrateResult)
  else
    let files_copied := (user_state.filter (fun p => p.2.verified)).length
    if 0 < files_copied then
      let desktop_dir := target_dir ++ "/Desktops/Desktop1"
      let documents_dir := target_dir ++ "/Документы"
      if fs.contains desktop_dir || fs.contains documents_dir then
        (ResumeAction.alreadyComplete, true)
      else (ResumeAction.phaseBOnly, renameOk)
    else (ResumeAction.fullMigration, fullMigrateResult)

/-! ### C5 — integrity_checker.generate_path_variants / load_hashes_from_db

Python string operations are modelled over `String.data` (lists of
characters). -/

/-- Python `s.replace(a, b)` for single characters. -/
def pyReplaceChar (s : String) (a b : Char) : String :=
  ⟨s.data.map (fun c => if c = a then b else c)⟩

/-- Python `c in s` for a single character. -/
def pyContainsChar (s : String) (c : Char) : Bool := s.data.contains c

/-- Python `s.split(c)` on the character list (keeps empty fields). -/
def splitCharList (c : Char) : List Char → List (List Char)
  | [] => [[]]
  | x :: xs =>
    match splitCharList c xs with
    | [] => [[]]
    | h :: t => if x = c then [] :: h :: t else (x :: h) :: t

/-- Python `s.split(c)` for a single-character separator. -/
def pySplitChar (c : Char) (s : String) : List String :=
  (splitCharList c s.data).map (fun l => ⟨l⟩)

/-- Python `s.startswith(pre)`. -/
def pyStartsWith (s pre : String) : Bool := pre.data.isPrefixOf s.data

/-- Python `s.lstrip('/')`. -/
def pyLStripSlash (s : String) : String := ⟨s.data.dropWhile (fun c => c = '/')⟩

/-- `username.split('@')[0] if username and '@' in username else username`
(integrity_checker.py:131). -/
def cleanUsername : Option String → Option String
  | none => none
  | some u =>
    if (!(u == "")) && pyContainsChar u '@' then
      some ((pySplitChar '@' u).headD "")
    else some u

/-- Python truthiness of an optional string. -/
def optTruthy : Option String → Bool
  | none => false
  | some s => !(s == "")

/-- `generate_path_variants` (integrity_checker.py:108-175): the ordered,
deduplicated list of alternative keys generated for one stored path. -/
def generate_path_variants (file_path : String) (username : Option String) :
    List String :=
  let normalized := pyReplaceChar file_path '\\' '/'
  let variants := [normalized]
  let variants :=
    if pyContainsChar normalized '/' then
      variants ++ [pyReplaceChar normalized '/' '\\']
    else variants
  let path_parts := pySplitChar '/' normalized
  let file_name := path_parts.getLastD ""
  let clean := cleanUsername username
  let variants :=
    if path_parts.contains "Desktop" then
      let desktop_index := path_parts.findIdx (fun s => s == "Desktop")
      let rel := String.intercalate "/" (path_parts.drop (desktop_index + 1))
      let relBS := pyReplaceChar rel '/' '\\'
      let userVariants :=
        if optTruthy clean then
          [clean.getD "" ++ "/Desktop/" ++ rel,
           clean.getD "" ++ "\\Desktop\\" ++ relBS]
        else []
      variants ++ userVariants ++ ["Desktop/" ++ rel, "Desktop\\" ++ relBS]
    else variants
  let variants :=
    if optTruthy clean then
      let cu := clean.getD ""
      let rel_user :=
        if path_parts.headD "" == cu then String.intercalate "/" (path_parts.drop 1)
        else normalized
      variants ++ [cu ++ "/" ++ rel_user, cu ++ "\\" ++ pyReplaceChar rel_user '/' '\\']
    else variants
  let variants :=
    if (!(file_name == "")) &&
        (decide (10 < file_name.length) || pyContainsChar file_name '_' ||
          pyContainsChar file_name '-') then
      variants ++ [file_name]
    else variants
  variants.foldl
    (fun acc v => if (!(v == "")) && !(acc.contains v) then acc ++ [v] else acc) []

/-- `os.path.join(base, *segs)` (POSIX). -/
def pyOsJoin (base : String) (segs : List String) : String :=
  segs.foldl
    (fun acc seg =>
      if pyStartsWith seg "/" then seg
      else if acc == "" || (acc.data.getLast? == some '/') then acc ++ seg
      else acc ++ "/" ++ seg)
    base

/-- Component processing of `posixpath.normpath`. -/
def normPathFold (isAbs : Bool) : List String → List String → List String
  | acc, [] => acc
  | acc, comp :: rest =>
    if comp = "" ∨ comp = "." then normPathFold isAbs acc rest
    else if comp ≠ ".." ∨ (isAbs = false ∧ acc = []) ∨ acc.getLast? = some ".." then
      normPathFold isAbs (acc ++ [comp]) rest
    else if acc ≠ [] then normPathFold isAbs acc.dropLast rest
    else normPathFold isAbs acc rest

/-- `os.path.normpath` (POSIX). -/
def pyNormPath (p : String) : String :=
  let isAbs := pyStartsWith p "/"
  let comps := pySplitChar '/' p
  let joined := String.intercalate "/" (normPathFold isAbs [] comps)
  let out := if isAbs then "/" ++ joined else joined
  if out = "" then "." else out

/-- `convert_win_path_to_linux` (integrity_checker.py:33-105) with
`remove_network_path=True` and `apply_base_path=True`, as at its only call
inside `load_hashes_from_db`. -/
def convert_win_path_to_linux (win_path : String) (network_path : Option String)
    (base_path : String) (folder_mapping desktop_rename : List (String × String)) :
    String :=
  let path_unix := pyReplaceChar win_path '\\' '/'
  let path_unix :=
    match network_path with
    | some np =>
      if (!(np == "")) && pyStartsWith path_unix np then
        ⟨path_unix.data.drop np.data.length⟩
      else path_unix
    | none => path_unix
  let path_unix := pyLStripSlash path_unix
  let segments := pySplitChar '/' path_unix
  let mapped := segments.foldl
    (fun acc seg =>
      match pyDictGet desktop_rename seg with
      | some repl => acc ++ pySplitChar '/' repl
      | none =>
        match pyDictGet folder_mapping seg with
        | some m => acc ++ [m]
        | none => acc ++ [seg])
    []
  if base_path ≠ "" then pyNormPath (pyOsJoin base_path mapped)
  else String.intercalate "/" mapped

/-- One row of the `file_hashes` table folded into the hash dict
(integrity_checker.py:224-257): empty path or digest is skipped; the
username is only used for non-UNC paths; every generated variant is
assigned the row's digest with plain dict assignment. -/
def loadHashRow (npu base_path : String) (hashes : List (String × String))
    (row : String × String) : List (String × String) :=
  if row.1 = "" ∨ row.2 = "" then hashes
  else
    let username : Option String :=
      if pyStartsWith row.1 "//" || pyStartsWith row.1 "\\\\" then none
      else some npu
    let path_variants := generate_path_variants row.1 username
    let path_variants :=
      if base_path ≠ "" then
        let folder_mapping :=
          [("Documents", "Документы"), ("Downloads", "Загрузки"),
           ("Pictures", "Изображения")]
        let desktop_rename := [("Desktop", "Desktops/Desktop1")]
        let network_path := if username.isNone then some npu else none
        let converted :=
          convert_win_path_to_linux row.1 network_path base_path
            folder_mapping desktop_rename
        if converted ≠ "" then path_variants ++ [converted] else path_variants
      else path_variants
    path_variants.foldl (fun m p => pyDictInsert m p row.2) hashes

/-- `load_hashes_from_db` (integrity_checker.py:178-274) over the rows read
from the `file_hashes` table, in row order. -/
def load_hashes_from_db (rows : List (String × String)) (base_path npu : String) :
    List (String × String) :=
  rows.foldl (loadHashRow npu base_path) []

/-! ### C9 — supervisor file-operation traces

Every file operation performed by migration_supervisor.py, per function, in
program order; `spawnO`/`signalO` are the process operations. -/

/-- A primitive operation on the filesystem. -/
inductive FileOp where
  | readO (path : String)
  | writeO (path : String) (content : String)
  | appendO (path : String) (content : String)
  | removeO (path : String)
  | spawnO
  | signalO
deriving DecidableEq

/-- The path a file operation writes to, if any. -/
def FileOp.writesPath : FileOp → Option String
  | FileOp.writeO p _ => some p
  | FileOp.appendO p _ => some p
  | FileOp.removeO p => some p
  | _ => none

/-- Supervisor read file for the journal projection. -/
def SUPERVISOR_READ_FILE : String := "/var/lib/migration-service/supervisor_state.json"

/-- Full service state file (fallback read). -/
def SERVICE_STATE_FILE : String := "/var/lib/migration-service/state.json"

/-- Supervisor PID file. -/
def PID_FILE : String := "/var/run/migration-supervisor.pid"

/-- Supervisor log file. -/
def LOG_FILE : String := "/var/log/migration-supervisor/migration-supervisor.log"

/-- Orchestrator output log written by start_migration. -/
def MIGRATION_LOG : String := "/var/log/migration-supervisor/migration.log"

/-- Orchestrator entry point script. -/
def MAIN_SCRIPT : String := "/opt/migration/main.py"

/-- Python interpreter probed by get_python_executable. -/
def VENV_PYTHON : String := "/opt/migration/venv/bin/python"

/-- `safe_read_json_file` (migration_supervisor.py:41-78): read only. -/
def safe_read_json_file_ops (path : String) : List FileOp := [FileOp.readO path]

/-- `read_supervisor_state` (migration_supervisor.py:127-142): reads the
projection, then falls back to the service state file. -/
def read_supervisor_state_ops : List FileOp :=
  safe_read_json_file_ops SUPERVISOR_READ_FILE ++
    safe_read_json_file_ops SERVICE_STATE_FILE

/-- `get_python_executable`: probes the venv interpreter. -/
def get_python_executable_ops : List FileOp := [FileOp.readO VENV_PYTHON, FileOp.spawnO]

/-- `get_status`: probes the interpreter and reads the state. -/
def get_status_ops : List FileOp := get_python_executable_ops ++ read_supervisor_state_ops

/-- `write_pid`: writes the PID file. -/
def write_pid_ops : List FileOp := [FileOp.writeO PID_FILE "pid"]

/-- `remove_pid`: removes the PID file. -/
def remove_pid_ops : List FileOp := [FileOp.removeO PID_FILE]

/-- `setup_logging`: opens the supervisor log for appending. -/
def setup_logging_ops : List FileOp := [FileOp.appendO LOG_FILE ""]

/-- `start_migration`: checks the script, probes the interpreter, opens the
orchestrator log for appending and spawns the child. -/
def start_migration_ops : List FileOp :=
  [FileOp.readO MAIN_SCRIPT] ++ get_python_executable_ops ++
    [FileOp.appendO MIGRATION_LOG "", FileOp.spawnO]

/-- `stop_migration`: signals the child. -/
def stop_migration_ops : List FileOp := [FileOp.signalO]

/-- One iteration of the watch loop (migration_supervisor.py:443-485):
completion check, liveness check, a re-check after child exit, and at most
one restart. -/
def watch_iteration_ops : List FileOp :=
  read_supervisor_state_ops ++ read_supervisor_state_ops ++
    read_supervisor_state_ops ++ stop_migration_ops ++ start_migration_ops

/-- Operations of `run` before the watch loop. -/
def run_fixed_pre : List FileOp :=
  setup_logging_ops ++ write_pid_ops ++ read_supervisor_state_ops ++
    start_migration_ops

/-- Operations of `run` after the watch loop. -/
def run_fixed_post : List FileOp := stop_migration_ops ++ remove_pid_ops

/-- `run` (migration_supervisor.py:417-495) with `n` loop iterations. -/
def run_ops (n : Nat) : List FileOp :=
  run_fixed_pre ++ (List.replicate n watch_iteration_ops).flatten ++ run_fixed_post

/-- A supervisor-only session: one of the CLI commands or the watch loop. -/
inductive SupervisorCmd where
  | statusCmd
  | stopCmd
  | checkMigrationCmd
  | watchLoop (iterations : Nat)
deriving DecidableEq

/-- Operations performed by each supervisor entry point
(migration_supervisor.py:497-532): every command first constructs the
supervisor (setup_logging). -/
def cmdOps : SupervisorCmd → List FileOp
  | SupervisorCmd.statusCmd => setup_logging_ops ++ get_status_ops
  | SupervisorCmd.stopCmd => setup_logging_ops ++ [FileOp.readO PID_FILE, FileOp.signalO]
  | SupervisorCmd.checkMigrationCmd => setup_logging_ops ++ read_supervisor_state_ops
  | SupervisorCmd.watchLoop n => run_ops n

/-- Effect of one file operation on file contents. -/
def applyOp (fs : String → Option String) : FileOp → (String → Option String)
  | FileOp.writeO p c => fun q => if q = p then some c else fs q
  | FileOp.appendO p c => fun q => if q = p then some ((fs p).getD "" ++ c) else fs q
  | FileOp.removeO p => fun q => if q = p then none else fs q
  | _ => fs

/-- Effect of a trace of file operations. -/
def applyOps (fs : String → Option String) (ops : List FileOp) :
    String → Option String :=
  ops.foldl applyOp fs

/-! ### C8 — phase A worker pool size -/

/-- `ThreadPoolExecutor(max_workers=os.cpu_count() or 2)`
(direct_migration_2.py:543).  Python `or` yields the right operand exactly
when the left one is falsy (`None` or `0`). -/
def pool_max_workers : Option Nat → Nat
  | none => 2
  | some n => if n = 0 then 2 else n

end AstraMigration

namespace AstraMigration

/-! ## Theorems -/

/-- C1: for every candidate basename and registry state, `shorten_filename`
returns an unreserved name of at most 255 bytes, reserving it; in
particular a within-limit but already-reserved candidate yields a `_N`
suffixed name.  The code instead raises `UnboundLocalError`: with the
5-byte candidate `a.txt` already reserved in the destination directory, the
`len(filename_bytes) <= max_length` branch does not return, and line 76
reads the never-assigned `new_filename`. -/
theorem C1_short_reserved_name_raises :
    shorten_filename [97, 46, 116, 120, 116] [[97, 46, 116, 120, 116]] 255
      = Except.error "UnboundLocalError: new_filename" := by
  rfl

/-- C2 counterexample: a run with a single file whose copy failed with an
IO error (the copy result is `(False, message)`) is written to the journal
as `completed_with_error`, not `failed` as the claim states. -/
theorem C2_io_error_not_failed :
    (direct_copy_file ctxIOError []).1.1 = false ∧
    userOutcome (direct_migrate [ctxIOError] true) = "completed_with_error" ∧
    userOutcome (direct_migrate [ctxIOError] true) ≠ "failed" := by
  decide

/-- C2 amended: the per-user outcome the orchestrator writes is never
`failed`; it is `success` exactly when every copy succeeded and phase B
succeeded, and `completed_with_error` otherwise — IO copy failures and
verification discrepancies are not distinguished. -/
theorem C2_outcome_binary (files : List FileCtx) (renameOk : Bool) :
    userOutcome (direct_migrate files renameOk) ≠ "failed" ∧
    (userOutcome (direct_migrate files renameOk) = "success" ↔
      (copyPhase files []).1 = true ∧ renameOk = true) := by
  unfold direct_migrate userOutcome
  cases h : (copyPhase files []).1 <;> cases renameOk <;> decide

/-- C3 counterexample: the orchestrator's own update sequence in a run with
one failed user — `status=failed` at main.py:329 followed by
`status=success` at main.py:355, `update_global_state` merging patches
unconditionally — moves the global status from the terminal `failed` back
to `success`. -/
theorem C3_failed_then_success :
    runUpdates "in_progress" [JournalUpdate.patch (some "failed")] = "failed" ∧
    runUpdates "in_progress" orchestratorFailThenFinish = "success" ∧
    ("success" : String) ≠ "failed" := by
  decide

/-- Helper: a run of error-handler updates keeps the status `failed`. -/
theorem runUpdates_onError_failed :
    ∀ (u : List JournalUpdate),
      (∀ x ∈ u, ∃ sc cc, x = JournalUpdate.onError sc cc) →
      runUpdates "failed" u = "failed"
  | [], _ => rfl
  | x :: rest, h => by
    obtain ⟨sc, cc, hxeq⟩ := h x (List.mem_cons_self x rest)
    have hstep : applyUpdate "failed" x = "failed" := by
      subst hxeq; cases sc <;> cases cc <;> rfl
    have hrest := runUpdates_onError_failed rest
      (fun y hy => h y (List.mem_cons_of_mem x hy))
    simpa [runUpdates, hstep] using hrest

/-- C3 amended: `update_global_state` applies its status patch
unconditionally, so a later `success` patch overwrites `failed`;
monotonicity of `failed` holds only across `handle_migration_error`
updates, which always keep `failed` once set. -/
theorem C3_error_handler_keeps_failed (u : List JournalUpdate)
    (h : ∀ x ∈ u, ∃ sc cc, x = JournalUpdate.onError sc cc) :
    runUpdates "failed" u = "failed" ∧
    ∀ (cur s : String), runUpdates cur [JournalUpdate.patch (some s)] = s :=
  ⟨runUpdates_onError_failed u h, fun _ _ => rfl⟩

/-- Witness for C3 amended at a concrete error sequence. -/
theorem C3_error_handler_keeps_failed_witness :
    runUpdates "failed" [JournalUpdate.onError false false, JournalUpdate.onError true false]
        = "failed" ∧
    ∀ (cur s : String), runUpdates cur [JournalUpdate.patch (some s)] = s :=
  C3_error_handler_keeps_failed
    [JournalUpdate.onError false false, JournalUpdate.onError true false]
    (by decide)

/-- C4 counterexample: a run whose mount failed (a fatal initialization
error) and a run that completed with errors both exit with code 0 — main()
returns `None` on every non-encrypt path and never calls `sys.exit(1)` or
`sys.exit(2)`. -/
theorem C4_no_nonzero_exit_codes :
    processExitCode (mainControl runMountFailure) = 0 ∧ (0 : Nat) ≠ 1 ∧
    processExitCode (mainControl runCompletedWithErrors) = 0 ∧ (0 : Nat) ≠ 2 := by
  decide

/-- C4 amended: every non-crashing run of the orchestrator exits with code
0, whatever its outcome; exit codes 1 and 2 are never produced. -/
theorem C4_always_exit_zero (r : RunInput) :
    processExitCode (mainControl r) = 0 := by
  cases r with
  | mk ea ep mo se rr he => cases ea <;> cases ep <;> cases mo <;> cases se <;> rfl

/-- C6: `save_state_dual` reports success exactly when at least one of the
five state files (four local, one network) was written; the local result is
computed independently of the network result, and `save_to_local` itself
succeeds exactly when at least one of its four files was written. -/
theorem C6_dual_save_success (w1 w2 w3 w4 wNetwork : Bool) :
    (save_state_dual w1 w2 w3 w4 wNetwork = true ↔
      (w1 = true ∨ w2 = true ∨ w3 = true ∨ w4 = true ∨ wNetwork = true)) ∧
    (save_to_local w1 w2 w3 w4 = true ↔
      (w1 = true ∨ w2 = true ∨ w3 = true ∨ w4 = true)) ∧
    save_state_dual w1 w2 w3 w4 false = save_to_local w1 w2 w3 w4 := by
  cases w1 <;> cases w2 <;> cases w3 <;> cases w4 <;> cases wNetwork <;> decide

/-- C7 counterexample: a resumed user with one verified checkpoint entry
whose target home contains the localized folder `Загрузки` (but neither
`Desktops/Desktop1` nor `Документы`) is not treated as already complete:
the engine runs phase B instead of returning success without work, because
lines 757-760 test only those two directories. -/
theorem C7_zagruzki_not_evidence :
    resume_direct_migration "/home/u" [("/mnt/share/u/f.txt", ⟨true, 1⟩)]
        ["/home/u/Загрузки"] true true
      = (ResumeAction.phaseBOnly, true) ∧
    ResumeAction.phaseBOnly ≠ ResumeAction.alreadyComplete := by
  decide

/-- C7 amended: on resume with at least one verified checkpoint entry, the
engine returns success-without-work exactly when `Desktops/Desktop1` or
`Документы` exists under the target home (other localized folders are not
consulted); when neither exists it runs phase B only and returns its
result. -/
theorem C7_resume_decision (target : String) (st : List (String × CpInfo))
    (fs : List String) (renameOk fullRes : Bool)
    (h : 0 < (st.filter (fun p => p.2.verified)).length) :
    resume_direct_migration target st fs renameOk fullRes =
      (if fs.contains (target ++ "/Desktops/Desktop1") ||
          fs.contains (target ++ "/Документы")
       then (ResumeAction.alreadyComplete, true)
       else (ResumeAction.phaseBOnly, renameOk)) := by
  have hne : st.isEmpty = false := by
    cases st with
    | nil => simp at h
    | cons a l => rfl
  unfold resume_direct_migration
  simp only [hne, Bool.false_eq_true, if_false, if_pos h]

/-- Witness for C7 amended at a concrete resumed user. -/
theorem C7_resume_decision_witness :
    resume_direct_migration "/home/u" [("/mnt/share/u/f.txt", ⟨true, 1⟩)]
        ["/home/u/Документы"] false true =
      (if List.contains ["/home/u/Документы"] ("/home/u" ++ "/Desktops/Desktop1") ||
          List.contains ["/home/u/Документы"] ("/home/u" ++ "/Документы")
       then (ResumeAction.alreadyComplete, true)
       else (ResumeAction.phaseBOnly, false)) :=
  C7_resume_decision "/home/u" [("/mnt/share/u/f.txt", ⟨true, 1⟩)]
    ["/home/u/Документы"] false true (by decide)

/-- C8 counterexample: on a host reporting one CPU the pool has one worker,
not `max(2, cpu_count) = 2` — `os.cpu_count() or 2` only substitutes 2 when
`cpu_count()` is `None` (or 0), not when it is 1. -/
theorem C8_one_cpu_one_worker :
    pool_max_workers (some 1) = 1 ∧ max 2 1 = 2 ∧ (1 : Nat) ≠ 2 := by
  decide

/-- C8 amended: the pool size equals the reported CPU count whenever it is
a positive number, and 2 only when the report is `None` (or 0). -/
theorem C8_pool_size (n : Nat) :
    pool_max_workers (some (n + 1)) = n + 1 ∧
    pool_max_workers none = 2 ∧ pool_max_workers (some 0) = 2 := by
  refine ⟨?_, rfl, rfl⟩
  simp [pool_max_workers]

/-- Helper: Python dict assignment then lookup. -/
theorem pyDictGet_pyDictInsert {α : Type} (m : List (String × α)) (p k : String)
    (v : α) :
    pyDictGet (pyDictInsert m p v) k = if p = k then some v else pyDictGet m k := by
  induction m with
  | nil =>
    by_cases h : p = k <;> simp [pyDictInsert, pyDictGet, h]
  | cons q rest ih =>
    by_cases hqp : q.1 = p
    · by_cases hpk : p = k
      · subst hpk
        simp [pyDictInsert, pyDictGet, hqp]
      · have hqk : ¬q.1 = k := by rw [hqp]; exact hpk
        simp [pyDictInsert, pyDictGet, hqp, hpk, hqk]
    · by_cases hqk : q.1 = k
      · have hpk : ¬p = k := by
          intro h
          exact hqp (by rw [hqk, h])
        have hkp : ¬k = p := fun h => hpk h.symm
        simp [pyDictInsert, pyDictGet, hqp, hqk, hpk, hkp]
      · simp [pyDictInsert, pyDictGet, hqp, hqk, ih]

/-- Helper: assigning one value to a list of keys, then looking one up. -/
theorem pyDictGet_foldlInsert {α : Type} (hv : α) (k : String) :
    ∀ (vs : List String) (m : List (String × α)),
      pyDictGet (vs.foldl (fun acc p => pyDictInsert acc p hv) m) k
        = if k ∈ vs then some hv else pyDictGet m k
  | [], m => by simp
  | p :: vs, m => by
    have ih := pyDictGet_foldlInsert hv k vs (pyDictInsert m p hv)
    by_cases hkv : k ∈ vs
    · simp [List.foldl_cons, ih, hkv]
    · by_cases hpk : p = k
      · subst hpk
        simp [List.foldl_cons, ih, hkv, pyDictGet_pyDictInsert]
      · have hkp : ¬k = p := fun h => hpk h.symm
        simp [List.foldl_cons, ih, hkv, pyDictGet_pyDictInsert, hpk, hkp]

/-- C5 counterexample: two database rows whose basenames coincide both
generate the fallback key `longfilename.txt`; the digest stored for that
key is the second row's `H2`, because `hashes[path] = hash_value`
overwrites — not the first row's `H1` as the claim states. -/
theorem C5_duplicate_key_not_first :
    "longfilename.txt" ∈ generate_path_variants "alice/longfilename.txt" (some "alice") ∧
    "longfilename.txt" ∈ generate_path_variants "bob/longfilename.txt" (some "alice") ∧
    pyDictGet
        (load_hashes_from_db
          [("alice/longfilename.txt", "H1"), ("bob/longfilename.txt", "H2")]
          "" "alice")
        "longfilename.txt" = some "H2" ∧
    ("H2" : String) ≠ "H1" := by
  decide

/-- C5 amended: duplicate keys prefer the LAST written value — for any
non-empty, non-UNC row appended to the table, every key among its generated
variants maps to that row's digest in the final index, whatever earlier
rows wrote. -/
theorem C5_last_row_wins (rows : List (String × String)) (npu fp hv k : String)
    (hfp : fp ≠ "") (hhv : hv ≠ "")
    (hunc : (pyStartsWith fp "//" || pyStartsWith fp "\\\\") = false)
    (hk : k ∈ generate_path_variants fp (some npu)) :
    pyDictGet (load_hashes_from_db (rows ++ [(fp, hv)]) "" npu) k = some hv := by
  unfold load_hashes_from_db
  rw [List.foldl_append]
  simp only [List.foldl_cons, List.foldl_nil]
  unfold loadHashRow
  simp only [hfp, hhv, hunc, or_self, if_false, Bool.false_eq_true,
    ne_eq, not_true_eq_false, if_neg, pyDictGet_foldlInsert]
  simp [hfp, hhv, hk]

/-- Witness for C5 amended at the concrete colliding rows. -/
theorem C5_last_row_wins_witness :
    pyDictGet
        (load_hashes_from_db
          ([("alice/longfilename.txt", "H1")] ++ [("bob/longfilename.txt", "H2")])
          "" "alice")
        "longfilename.txt" = some "H2" :=
  C5_last_row_wins [("alice/longfilename.txt", "H1")] "alice"
    "bob/longfilename.txt" "H2" "longfilename.txt"
    (by decide) (by decide) (by decide) (by decide)

/-- Helper: a non-writing file operation leaves a path's content unchanged. -/
theorem applyOp_apply_ne (fs : String → Option String) (op : FileOp) (p : String)
    (h : FileOp.writesPath op ≠ some p) : applyOp fs op p = fs p := by
  cases op with
  | writeO q c =>
    have hqp : ¬p = q := fun hq => h (by simp [FileOp.writesPath, hq])
    simp [applyOp, hqp]
  | appendO q c =>
    have hqp : ¬p = q := fun hq => h (by simp [FileOp.writesPath, hq])
    simp [applyOp, hqp]
  | removeO q =>
    have hqp : ¬p = q := fun hq => h (by simp [FileOp.writesPath, hq])
    simp [applyOp, hqp]
  | readO q => rfl
  | spawnO => rfl
  | signalO => rfl

/-- Helper: a trace with no write to `p` preserves the content at `p`. -/
theorem applyOps_preserve (p : String) :
    ∀ (ops : List FileOp) (fs : String → Option String),
      (∀ op ∈ ops, FileOp.writesPath op ≠ some p) →
      applyOps fs ops p = fs p
  | [], _, _ => rfl
  | op :: ops, fs, h => by
    have h1 := applyOp_apply_ne fs op p (h op (List.mem_cons_self op ops))
    have h2 := applyOps_preserve p ops (applyOp fs op)
      (fun o ho => h o (List.mem_cons_of_mem op ho))
    simpa [applyOps, h1] using h2

/-- Helper: the fixed prefix of the watch loop writes no state file. -/
theorem run_fixed_pre_no_state_writes :
    ∀ op ∈ run_fixed_pre,
      FileOp.writesPath op ≠ some SUPERVISOR_READ_FILE ∧
      FileOp.writesPath op ≠ some SERVICE_STATE_FILE := by
  decide

/-- Helper: the fixed suffix of the watch loop writes no state file. -/
theorem run_fixed_post_no_state_writes :
    ∀ op ∈ run_fixed_post,
      FileOp.writesPath op ≠ some SUPERVISOR_READ_FILE ∧
      FileOp.writesPath op ≠ some SERVICE_STATE_FILE := by
  decide

/-- Helper: one watch-loop iteration writes no state file. -/
theorem watch_iteration_no_state_writes :
    ∀ op ∈ watch_iteration_ops,
      FileOp.writesPath op ≠ some SUPERVISOR_READ_FILE ∧
      FileOp.writesPath op ≠ some SERVICE_STATE_FILE := by
  decide

/-- Helper: no supervisor entry point ever writes a state file. -/
theorem cmdOps_no_state_writes (cmd : SupervisorCmd) :
    ∀ op ∈ cmdOps cmd,
      FileOp.writesPath op ≠ some SUPERVISOR_READ_FILE ∧
      FileOp.writesPath op ≠ some SERVICE_STATE_FILE := by
  cases cmd with
  | statusCmd => decide
  | stopCmd => decide
  | checkMigrationCmd => decide
  | watchLoop n =>
    intro op hop
    simp only [cmdOps, run_ops, List.mem_append, List.mem_flatten] at hop
    rcases hop with (hpre | ⟨l, hl, hin⟩) | hpost
    · exact run_fixed_pre_no_state_writes op hpre
    · rw [List.eq_of_mem_replicate hl] at hin
      exact watch_iteration_no_state_writes op hin
    · exact run_fixed_post_no_state_writes op hpost

/-- C9: a supervisor-only session — any of the status, stop and
check-migration commands or a watch loop of any length — performs only
reads on the journal projection and service state files, so their content
is unchanged by the session. -/
theorem C9_supervisor_never_writes_state (cmd : SupervisorCmd)
    (fs : String → Option String) :
    applyOps fs (cmdOps cmd) SUPERVISOR_READ_FILE = fs SUPERVISOR_READ_FILE ∧
    applyOps fs (cmdOps cmd) SERVICE_STATE_FILE = fs SERVICE_STATE_FILE :=
  ⟨applyOps_preserve SUPERVISOR_READ_FILE (cmdOps cmd) fs
      (fun op hop => (cmdOps_no_state_writes cmd op hop).1),
   applyOps_preserve SERVICE_STATE_FILE (cmdOps cmd) fs
      (fun op hop => (cmdOps_no_state_writes cmd op hop).2)⟩

/-- Helper: membership in a Python dict after one assignment. -/
theorem mem_pyDictInsert {α : Type} :
    ∀ (m : List (String × α)) (s : String) (v : α) (k : String) (e : α),
      (k, e) ∈ pyDictInsert m s v → (k, e) ∈ m ∨ (k = s ∧ e = v)
  | [], s, v, k, e => by
    intro hmem
    simp [pyDictInsert] at hmem
    exact Or.inr hmem
  | q :: rest, s, v, k, e => by
    intro hmem
    by_cases hq : q.1 = s
    · simp [pyDictInsert, hq] at hmem
      rcases hmem with h | h
      · exact Or.inr h
      · exact Or.inl (List.mem_cons_of_mem q h)
    · simp only [pyDictInsert, beq_iff_eq, hq, if_false, List.mem_cons] at hmem
      rcases hmem with h | h
      · exact Or.inl (by simp [h])
      · rcases mem_pyDictInsert rest s v k e h with h2 | h2
        · exact Or.inl (List.mem_cons_of_mem q h2)
        · exact Or.inr h2

/-- C10: every entry of the per-user checkpoint after a `direct_copy_file`
invocation either was already there or is the entry for the invocation's
source file, carries `verified = true`, and was added only because the file
needed copying, the copy raised no error and the integrity verification
succeeded (the invocation then reports `(True, None)`); skipped files and
failed copies or verifications never add an entry. -/
theorem C10_checkpoint_entries_verified (f : FileCtx)
    (cp : List (String × CheckpointEntry)) (k : String) (e : CheckpointEntry)
    (hmem : (k, e) ∈ (direct_copy_file f cp).2) :
    (k, e) ∈ cp ∨
      (e.verified = true ∧ k = f.src ∧ f.raised = false ∧ needsCopy f = true ∧
        f.integrityOk = true ∧ (direct_copy_file f cp).1 = (true, none)) := by
  by_cases hr : f.raised = true
  · simp only [direct_copy_file, hr, if_true] at hmem
    exact Or.inl hmem
  · have hr' : f.raised = false := by simpa using hr
    by_cases hn : needsCopy f = true
    · by_cases hi : f.integrityOk = true
      · simp only [direct_copy_file, hr', hn, hi, Bool.false_eq_true, if_false,
          if_true] at hmem
        rcases mem_pyDictInsert cp f.src _ k e hmem with h | h
        · exact Or.inl h
        · refine Or.inr ⟨by rw [h.2], h.1, hr', hn, hi, ?_⟩
          simp [direct_copy_file, hr', hn, hi]
      · have hi' : f.integrityOk = false := by simpa using hi
        simp only [direct_copy_file, hr', hn, hi', Bool.false_eq_true, if_false,
          if_true] at hmem
        exact Or.inl hmem
    · have hn' : needsCopy f = false := by simpa using hn
      simp only [direct_copy_file, hr', hn', Bool.false_eq_true, if_false] at hmem
      exact Or.inl hmem

/-- Witness for C10 at a concrete copied-and-verified file. -/
theorem C10_checkpoint_entries_verified_witness :
    ("/mnt/share/u/a.txt",
        ({ target_file := "/home/u/a.txt", size := 3, verified := true } :
          CheckpointEntry)) ∈ ([] : List (String × CheckpointEntry)) ∨
      (({ target_file := "/home/u/a.txt", size := 3, verified := true } :
          CheckpointEntry).verified = true ∧
        "/mnt/share/u/a.txt" = ctxVerifiedCopy.src ∧
        ctxVerifiedCopy.raised = false ∧ needsCopy ctxVerifiedCopy = true ∧
        ctxVerifiedCopy.integrityOk = true ∧
        (direct_copy_file ctxVerifiedCopy []).1 = (true, none)) :=
  C10_checkpoint_entries_verified ctxVerifiedCopy [] "/mnt/share/u/a.txt"
    { target_file := "/home/u/a.txt", size := 3, verified := true } (by decide)

end AstraMigration
